import Mathlib

/-!
Verification of the CampusBites environment-validation script
(server/validate-env.js) and the order route table (order.route.js).

The script is embedded shallowly:

* `process.env` becomes a total map `Env := String → Option String`;
  JS truthiness of an environment value ("" and `undefined` are falsy)
  becomes `truthy`.
* the two global mutable counters `testsPassed` / `testsFailed` become a
  `Counters` record threaded through the checks; `Counters.pass` and
  `Counters.fail` are the `++` statements.
* each external call (mongoose.connect / mongoose.disconnect /
  cloudinary.api.usage / fetch) is an oracle value of type
  `Except String _`: `.error` is the call throwing, `.ok` its result.
  A fetch result is the HTTP status code of the response.
* a JS `try { ... } catch (error) { testsFailed++ }` block becomes a
  check body of type `Except (String × Counters) Counters` (an error
  carries the counter state at the moment of the throw) consumed by
  `runCheck`, which is the catch handler of the source.
* `toFixed(2)` arithmetic is modelled with exact rational semantics:
  the success percentage is kept in hundredths of a percent and rounded
  half-up, which is what `toFixed` does on the exact value.
-/

namespace CampusBites

/-- The process environment: `process.env` lookups. `none` means the
variable is not set at all. -/
abbrev Env := String → Option String

/-- JS truthiness of an environment value: `undefined` and the empty
string are falsy, every other string is truthy. -/
def truthy : Option String → Bool
  | none => false
  | some s => !(s == "")

/-- The two global counters `testsPassed` and `testsFailed`. -/
structure Counters where
  passed : Nat
  failed : Nat
deriving DecidableEq, Repr

/-- `testsPassed++`. -/
def Counters.pass (c : Counters) : Counters := { c with passed := c.passed + 1 }

/-- `testsFailed++`. -/
def Counters.fail (c : Counters) : Counters := { c with failed := c.failed + 1 }

/-- Counters at script start (lines 26-27 of validate-env.js). -/
def initialCounters : Counters := ⟨0, 0⟩

/-- A check body running inside a `try` block: it either returns the
updated counters, or throws, carrying the error message and the counter
state at the moment of the throw. -/
abbrev CheckM := Except (String × Counters) Counters

/-- The `catch (error) { log(...); testsFailed++ }` handler wrapped
around every fallible check body. -/
def runCheck : CheckM → Counters
  | .ok c => c
  | .error (_, c) => c.fail

/-- One entry of the `envVars` table (lines 39-50). -/
structure EnvVarSpec where
  name : String
  required : Bool
  sensitive : Bool
deriving DecidableEq, Repr

/-- The fixed `envVars` list of testEnvironmentVariables (lines 39-50). -/
def envVars : List EnvVarSpec :=
  [ ⟨"MONGODB_URI", true, true⟩,
    ⟨"FRONTEND_URL", true, false⟩,
    ⟨"CLODINARY_CLOUD_NAME", true, false⟩,
    ⟨"CLODINARY_API_KEY", true, false⟩,
    ⟨"CLODINARY_API_SECRET_KEY", true, true⟩,
    ⟨"RESEND_API", true, true⟩,
    ⟨"SECRET_KEY_ACCESS_TOKEN", true, true⟩,
    ⟨"SECRET_KEY_REFRESH_TOKEN", true, true⟩,
    ⟨"PORT", false, false⟩,
    ⟨"STRIPE_SECRET_KEY", false, true⟩ ]

/-- The `displayValue` expression of line 55:
`value ? (sensitive ? notStar3 + value.slice(-4) : value) : notSet`
where `value.slice(-4)` is the last four characters. -/
def displayValue (sensitive : Bool) (v : Option String) : String :=
  if truthy v then
    if sensitive then "***" ++ (v.getD "").takeRight 4 else v.getD ""
  else "NOT SET"

/-- The body of the `envVars.forEach` callback (lines 52-63), restricted
to its effect on the counters:
`if (value) testsPassed++; else if (envVar.required) testsFailed++`. -/
def stepEnvVar (env : Env) (c : Counters) (spec : EnvVarSpec) : Counters :=
  if truthy (env spec.name) then c.pass
  else if spec.required then c.fail
  else c

/-- `testEnvironmentVariables` (lines 34-64): fold the forEach body over
the fixed spec list. This check has no try/catch, and its body performs
no fallible operation. -/
def testEnvironmentVariables (env : Env) (c : Counters) : Counters :=
  envVars.foldl (stepEnvVar env) c

/-- The `try` body of testMongoDBConnection (lines 71-89): missing URI
fails early; otherwise `mongoose.connect` is awaited (may throw), on
success `testsPassed++` happens BEFORE `mongoose.disconnect` is awaited
(which may also throw). -/
def mongoBody (env : Env) (connect disconnect : Except String Unit)
    (c : Counters) : CheckM :=
  if !(truthy (env "MONGODB_URI")) then .ok c.fail
  else
    match connect with
    | .error e => .error (e, c)
    | .ok _ =>
      let c1 := c.pass
      match disconnect with
      | .error e => .error (e, c1)
      | .ok _ => .ok c1

/-- `testMongoDBConnection` (lines 66-95): the try body with its catch
handler. -/
def testMongoDBConnection (env : Env) (connect disconnect : Except String Unit)
    (c : Counters) : Counters :=
  runCheck (mongoBody env connect disconnect c)

/-- The `try` body of testCloudinaryAPI (lines 102-128): missing
credentials fail early; otherwise `cloudinary.api.usage()` is awaited
and success passes the check. -/
def cloudinaryBody (env : Env) (usage : Except String Unit)
    (c : Counters) : CheckM :=
  if !(truthy (env "CLODINARY_CLOUD_NAME")) ||
     !(truthy (env "CLODINARY_API_KEY")) ||
     !(truthy (env "CLODINARY_API_SECRET_KEY")) then .ok c.fail
  else
    match usage with
    | .error e => .error (e, c)
    | .ok _ => .ok c.pass

/-- `testCloudinaryAPI` (lines 97-134). -/
def testCloudinaryAPI (env : Env) (usage : Except String Unit)
    (c : Counters) : Counters :=
  runCheck (cloudinaryBody env usage c)

/-- The Cloudinary key display of line 126: `***` plus
`apiKey.slice(-4)`. -/
def cloudinaryKeyDisplay (apiKey : String) : String :=
  "***" ++ apiKey.takeRight 4

/-- `response.ok` of node-fetch: status in the 2xx range. -/
def responseOk (status : Nat) : Bool :=
  200 ≤ status && status ≤ 299

/-- The `try` body of testResendAPI (lines 141-169): missing key fails
early; otherwise the GET against api.resend.com is awaited (a network
error throws); the response passes the check when
`response.ok || status === 200 || status === 401` (line 160). -/
def resendBody (env : Env) (fetchResult : Except String Nat)
    (c : Counters) : CheckM :=
  if !(truthy (env "RESEND_API")) then .ok c.fail
  else
    match fetchResult with
    | .error e => .error (e, c)
    | .ok status =>
      if responseOk status || status == 200 || status == 401 then .ok c.pass
      else .ok c.fail

/-- `testResendAPI` (lines 136-175). -/
def testResendAPI (env : Env) (fetchResult : Except String Nat)
    (c : Counters) : Counters :=
  runCheck (resendBody env fetchResult c)

/-- The Resend key display of line 162: `re_***` plus
`resendApi.slice(-8)`, i.e. the last EIGHT characters of the key. -/
def resendKeyDisplay (resendApi : String) : String :=
  "re_***" ++ resendApi.takeRight 8

/-- `testJWTSecrets` (lines 177-219): both secrets must be truthy, then
each secret passes when its length is at least 20 and fails otherwise
(lines 192-213). The try body performs no fallible operation, so the
catch of line 214 is dead and the function is total as written. -/
def testJWTSecrets (env : Env) (c : Counters) : Counters :=
  let access := env "SECRET_KEY_ACCESS_TOKEN"
  let refresh := env "SECRET_KEY_REFRESH_TOKEN"
  if !(truthy access) || !(truthy refresh) then c.fail
  else
    let a := (access.getD "").length
    let r := (refresh.getD "").length
    let c1 := if 20 ≤ a then c.pass else c.fail
    if 20 ≤ r then c1.pass else c1.fail

/-- `pat` occurs contiguously at the front of the second list. -/
def matchesFront : List Char → List Char → Bool
  | [], _ => true
  | _ :: _, [] => false
  | p :: ps, c :: cs => (p == c) && matchesFront ps cs

/-- `pat` occurs contiguously somewhere in the list. -/
def occursIn (pat : List Char) : List Char → Bool
  | [] => matchesFront pat []
  | c :: cs => matchesFront pat (c :: cs) || occursIn pat cs

/-- JS `s.includes(pat)`: substring containment. -/
def includes (s pat : String) : Bool := occursIn pat.data s.data

/-- `testCORSConfiguration` (lines 261-294): falsy FRONTEND_URL fails;
the exact development origin passes; a URL containing `vercel.app` or
`campusbites` passes; anything else is logged as UNUSUAL and changes no
counter. The try body performs no fallible operation. -/
def testCORSConfiguration (env : Env) (c : Counters) : Counters :=
  let v := env "FRONTEND_URL"
  if !(truthy v) then c.fail
  else
    let url := v.getD ""
    if url == "http://localhost:5173" then c.pass
    else if includes url "vercel.app" || includes url "campusbites" then c.pass
    else c

/-- One entry of the `endpoints` table of testAPIEndpoints
(lines 226-230); the POST body of the product endpoint is opaque data
and not modelled further. -/
structure Endpoint where
  method : String
  path : String
  description : String
deriving DecidableEq, Repr

/-- The fixed endpoint list of lines 226-230. -/
def endpoints : List Endpoint :=
  [ ⟨"GET", "/", "Health Check"⟩,
    ⟨"GET", "/api/category/get", "Get Categories"⟩,
    ⟨"POST", "/api/product/get", "Get Products"⟩ ]

/-- One iteration of the endpoint loop (lines 232-258): the per-endpoint
try/catch turns a thrown fetch into `testsFailed++`; a 2xx response is
`testsPassed++`; a non-2xx response is only a warning and changes no
counter. -/
def stepEndpoint (apiFetch : String → Except String Nat)
    (c : Counters) (e : Endpoint) : Counters :=
  match apiFetch e.path with
  | .error _ => c.fail
  | .ok status => if responseOk status then c.pass else c

/-- `testAPIEndpoints` (lines 221-259), with the fetch oracle keyed by
endpoint path. -/
def testAPIEndpoints (apiFetch : String → Except String Nat)
    (c : Counters) : Counters :=
  endpoints.foldl (stepEndpoint apiFetch) c

/-- All external-world oracles the script awaits. -/
structure World where
  connect : Except String Unit
  disconnect : Except String Unit
  usage : Except String Unit
  resendFetch : Except String Nat
  apiFetch : String → Except String Nat

/-- `passPercentage` of line 302, in hundredths of a percent:
`totalTests > 0 ? ((testsPassed / totalTests) * 100).toFixed(2) : 0`,
with the division-by-zero guard and `toFixed(2)` as round-half-up on
the exact rational value. -/
def passPercentageCentis (passed failed : Nat) : Nat :=
  let total := passed + failed
  if 0 < total then (2 * (passed * 10000) + total) / (2 * total) else 0

/-- Render a centi-percent value the way `toFixed(2)` renders the
percentage: integer part, a dot, and exactly two fraction digits. -/
def formatCentis (c : Nat) : String :=
  let frac := c % 100
  toString (c / 100) ++ "." ++
    (if frac < 10 then "0" ++ toString frac else toString frac)

/-- The success-rate fragment printed by line 307: the guarded branch
prints the bare number 0 when no test ran, otherwise the two-decimal
rendering; the template appends a percent sign. -/
def successRateDisplay (passed failed : Nat) : String :=
  (if 0 < passed + failed then formatCentis (passPercentageCentis passed failed)
   else "0") ++ "%"

/-- The three verdict branches of lines 309-315. -/
inductive Verdict
  | allPassed
  | warning
  | critical
deriving DecidableEq, Repr

/-- The verdict selection of `generateReport` (lines 309-315):
`testsFailed === 0` first, then `passPercentage >= 80` on the rounded
value, else the hard-failure branch. -/
def reportVerdict (c : Counters) : Verdict :=
  if c.failed == 0 then .allPassed
  else if 8000 ≤ passPercentageCentis c.passed c.failed then .warning
  else .critical

/-- The sequential check pipeline of `runAllTests` (lines 329-335). -/
def runChecks (env : Env) (w : World) : Counters :=
  let c := testEnvironmentVariables env initialCounters
  let c := testMongoDBConnection env w.connect w.disconnect c
  let c := testCloudinaryAPI env w.usage c
  let c := testResendAPI env w.resendFetch c
  let c := testJWTSecrets env c
  let c := testCORSConfiguration env c
  testAPIEndpoints w.apiFetch c

/-- The orchestration try block (lines 328-341). Every await that can
throw sits inside a check-level try/catch already consumed by
`runCheck`, so each check is a total function into `Counters` and the
sequence reaches `generateReport` with an ordinary value. -/
def orchestrate (env : Env) (w : World) : Except (String × Counters) Counters :=
  .ok (runChecks env w)

/-- The process exit status: the orchestration catch (lines 337-341)
calls `process.exit(1)`; normal completion lets node exit 0. -/
def scriptExitCode (env : Env) (w : World) : Nat :=
  match orchestrate env w with
  | .ok _ => 0
  | .error _ => 1

/-! The order route table, order.route.js. -/

/-- HTTP methods used by the order router. -/
inductive HttpMethod
  | get
  | post
deriving DecidableEq, Repr

/-- The callables installed on a route, in installation order: the auth
middleware and the two imported controllers. -/
inductive Handler
  | auth
  | cashOnDeliveryOrderController
  | getOrderDetailsController
deriving DecidableEq, Repr

/-- One route registration: method, path, and the handler chain in the
order it was passed to the router. -/
structure RouteBinding where
  method : HttpMethod
  path : String
  handlers : List Handler
deriving DecidableEq, Repr

/-- `orderRouter` (order.route.js lines 349-353): exactly the two
registrations, each listing `auth` before its controller. -/
def orderRouter : List RouteBinding :=
  [ ⟨.post, "/cash-on-delivery", [.auth, .cashOnDeliveryOrderController]⟩,
    ⟨.get, "/order-list", [.auth, .getOrderDetailsController]⟩ ]

/-- Express-style lookup: the first binding matching method and path;
its handler chain runs left to right. -/
def dispatch (router : List RouteBinding) (m : HttpMethod) (p : String) :
    Option (List Handler) :=
  (router.find? fun b => b.method == m && b.path == p).map RouteBinding.handlers

/-! Concrete environments and worlds used to evaluate the checks. -/

/-- An environment holding only a Resend API key. -/
def envResend : Env := fun n =>
  if n == "RESEND_API" then some "re_abcdefghijklmnop" else none

/-- An environment holding only a MongoDB URI. -/
def envMongoOnly : Env := fun n =>
  if n == "MONGODB_URI" then some "mongodb://user:pw@cluster.example.com/db" else none

/-- An environment where MONGODB_URI is set to the empty string. -/
def envEmptyMongo : Env := fun n =>
  if n == "MONGODB_URI" then some "" else none

/-- An environment where FRONTEND_URL is set to the empty string. -/
def envEmptyFrontend : Env := fun n =>
  if n == "FRONTEND_URL" then some "" else none

/-- An environment with a production frontend origin. -/
def envProdFrontend : Env := fun n =>
  if n == "FRONTEND_URL" then some "https://campusbites.vercel.app" else none

/-- An environment with an unrecognised frontend origin. -/
def envOtherFrontend : Env := fun n =>
  if n == "FRONTEND_URL" then some "https://example.org" else none

/-- An environment with a 20-character access secret and a 19-character
refresh secret. -/
def envJwtBoundary : Env := fun n =>
  if n == "SECRET_KEY_ACCESS_TOKEN" then some "aaaaaaaaaaaaaaaaaaaa"
  else if n == "SECRET_KEY_REFRESH_TOKEN" then some "bbbbbbbbbbbbbbbbbbb"
  else none

/-- A world where the database connection is refused and every other
call succeeds. -/
def worldConnectRefused : World :=
  ⟨.error "connect ECONNREFUSED 127.0.0.1:27017", .ok (), .ok (),
   .ok 200, fun _ => .ok 200⟩

/-- A world where the connection succeeds but the disconnect throws. -/
def worldDisconnectThrows : World :=
  ⟨.ok (), .error "disconnect failed", .ok (), .ok 401,
   fun _ => .error "ECONNREFUSED"⟩

/-! Theorems. -/

/-- C1: with the Resend API key present, the email-service check passes
on a 401 response and on every 2xx response, and fails when the request
throws and on every non-2xx, non-401 status. -/
theorem c1_email_check_statuses (env : Env) (fr : Except String Nat)
    (c : Counters) (hkey : truthy (env "RESEND_API") = true) :
    (fr = .ok 401 → testResendAPI env fr c = c.pass) ∧
    (∀ s, 200 ≤ s → s ≤ 299 → fr = .ok s → testResendAPI env fr c = c.pass) ∧
    (∀ e, fr = .error e → testResendAPI env fr c = c.fail) ∧
    (∀ s, fr = .ok s → ¬(200 ≤ s ∧ s ≤ 299) → s ≠ 401 →
       testResendAPI env fr c = c.fail) := by
  refine ⟨?_, ?_, ?_, ?_⟩
  · rintro rfl
    simp [testResendAPI, resendBody, hkey, runCheck, responseOk]
  · rintro s h200 h299 rfl
    simp [testResendAPI, resendBody, hkey, runCheck, responseOk, h200, h299]
  · rintro e rfl
    simp [testResendAPI, resendBody, hkey, runCheck]
  · rintro s rfl hrange h401
    have hok : responseOk s = false := by
      simp only [responseOk, Bool.and_eq_false_iff, decide_eq_false_iff_not]
      omega
    have h200 : (s == 200) = false := by
      simp only [beq_eq_false_iff_ne, ne_eq]
      omega
    have h401b : (s == 401) = false := by
      simp [h401]
    simp [testResendAPI, resendBody, hkey, runCheck, hok, h200, h401b]

/-- Witness for C1: with only RESEND_API set, a 401 response increments
testsPassed. -/
theorem c1_email_check_statuses_witness :
    truthy (envResend "RESEND_API") = true ∧
    testResendAPI envResend (.ok 401) ⟨3, 1⟩ = Counters.pass ⟨3, 1⟩ := by
  refine ⟨by decide, ?_⟩
  exact (c1_email_check_statuses envResend (.ok 401) ⟨3, 1⟩ (by decide)).1 rfl

/-- C5: with both JWT secrets present, each secret of length at least 20
adds one to testsPassed and each secret of length below 20 adds one to
testsFailed; the boundary sits exactly at 20 characters. -/
theorem c5_jwt_secret_boundary (env : Env) (c : Counters)
    (ha : truthy (env "SECRET_KEY_ACCESS_TOKEN") = true)
    (hr : truthy (env "SECRET_KEY_REFRESH_TOKEN") = true) :
    (testJWTSecrets env c).passed
      = c.passed
        + (if 20 ≤ ((env "SECRET_KEY_ACCESS_TOKEN").getD "").length then 1 else 0)
        + (if 20 ≤ ((env "SECRET_KEY_REFRESH_TOKEN").getD "").length then 1 else 0) ∧
    (testJWTSecrets env c).failed
      = c.failed
        + (if ((env "SECRET_KEY_ACCESS_TOKEN").getD "").length < 20 then 1 else 0)
        + (if ((env "SECRET_KEY_REFRESH_TOKEN").getD "").length < 20 then 1 else 0) := by
  simp only [testJWTSecrets, ha, hr, Bool.not_true, Bool.or_self, Bool.false_eq_true,
    if_false]
  constructor <;>
    split_ifs <;>
      simp_all [Counters.pass, Counters.fail] <;> omega

/-- Witness for C5: a 20-character access secret passes while a
19-character refresh secret fails. -/
theorem c5_jwt_secret_boundary_witness :
    (testJWTSecrets envJwtBoundary ⟨0, 0⟩).passed = 1 ∧
    (testJWTSecrets envJwtBoundary ⟨0, 0⟩).failed = 1 := by
  obtain ⟨h1, h2⟩ := c5_jwt_secret_boundary envJwtBoundary ⟨0, 0⟩ (by decide) (by decide)
  rw [h1, h2]
  decide

/-- C9: with a truthy MONGODB_URI, the database check changes exactly one
counter when the connection fails or when connect and disconnect both
succeed, but when the connection succeeds and the disconnect throws it
increments testsPassed and then testsFailed in the same invocation. -/
theorem c9_mongo_double_count (env : Env) (con dis : Except String Unit)
    (c : Counters) (huri : truthy (env "MONGODB_URI") = true) :
    (∀ e, con = .error e → testMongoDBConnection env con dis c = c.fail) ∧
    (con = .ok () → dis = .ok () → testMongoDBConnection env con dis c = c.pass) ∧
    (∀ e, con = .ok () → dis = .error e →
       testMongoDBConnection env con dis c = Counters.fail (Counters.pass c)) := by
  refine ⟨?_, ?_, ?_⟩
  · rintro e rfl
    simp [testMongoDBConnection, mongoBody, huri, runCheck]
  · rintro rfl rfl
    simp [testMongoDBConnection, mongoBody, huri, runCheck]
  · rintro e rfl rfl
    simp [testMongoDBConnection, mongoBody, huri, runCheck]

/-- Witness for C9: connect succeeds, disconnect throws, and both
counters are incremented by the one invocation. -/
theorem c9_mongo_double_count_witness :
    testMongoDBConnection envMongoOnly (.ok ()) (.error "disconnect failed")
      ⟨0, 0⟩ = ⟨1, 1⟩ := by
  exact (c9_mongo_double_count envMongoOnly (.ok ()) (.error "disconnect failed")
    ⟨0, 0⟩ (by decide)).2.2 "disconnect failed" rfl rfl

/-- C6 counterexample: MONGODB_URI is a required variable of the fixed
list and it is set (to the empty string), yet the forEach body leaves
testsPassed unchanged and increments testsFailed, because the source
tests JS truthiness rather than presence. -/
theorem c6_env_var_counterexample :
    (⟨"MONGODB_URI", true, true⟩ : EnvVarSpec) ∈ envVars ∧
    envEmptyMongo "MONGODB_URI" = some "" ∧
    stepEnvVar envEmptyMongo ⟨0, 0⟩ ⟨"MONGODB_URI", true, true⟩ = ⟨0, 1⟩ := by
  decide

/-- C6 amended: for every spec of the fixed list, a variable set to a
non-empty (truthy) value adds exactly one to testsPassed; a variable
that is unset or set to the empty string adds exactly one to testsFailed
when required and changes neither counter when optional. -/
theorem c6_env_var_counters (env : Env) (c : Counters) (spec : EnvVarSpec)
    (_hmem : spec ∈ envVars) :
    (truthy (env spec.name) = true → stepEnvVar env c spec = c.pass) ∧
    (truthy (env spec.name) = false → spec.required = true →
       stepEnvVar env c spec = c.fail) ∧
    (truthy (env spec.name) = false → spec.required = false →
       stepEnvVar env c spec = c) := by
  refine ⟨?_, ?_, ?_⟩
  · intro h
    simp [stepEnvVar, h]
  · intro h hreq
    simp [stepEnvVar, h, hreq]
  · intro h hreq
    simp [stepEnvVar, h, hreq]

/-- Witness for C6 amended: a set required variable passes and an unset
optional variable changes nothing. -/
theorem c6_env_var_counters_witness :
    stepEnvVar envMongoOnly ⟨0, 0⟩ ⟨"MONGODB_URI", true, true⟩ = ⟨1, 0⟩ ∧
    stepEnvVar envMongoOnly ⟨0, 0⟩ ⟨"PORT", false, false⟩ = ⟨0, 0⟩ := by
  constructor
  · exact (c6_env_var_counters envMongoOnly ⟨0, 0⟩ ⟨"MONGODB_URI", true, true⟩
      (by decide)).1 (by decide)
  · exact (c6_env_var_counters envMongoOnly ⟨0, 0⟩ ⟨"PORT", false, false⟩
      (by decide)).2.2 (by decide) rfl

/-- C7 counterexample: FRONTEND_URL set to the empty string is a value
other than the development origin and contains no production substring,
yet the check increments testsFailed instead of leaving the counters
unchanged, because the absence test is JS truthiness. -/
theorem c7_cors_counterexample :
    envEmptyFrontend "FRONTEND_URL" = some "" ∧
    ("" == "http://localhost:5173") = false ∧
    includes "" "vercel.app" = false ∧
    includes "" "campusbites" = false ∧
    testCORSConfiguration envEmptyFrontend ⟨0, 0⟩ = ⟨0, 1⟩ := by
  decide

/-- C7 amended: an unset or empty FRONTEND_URL fails the check; the exact
development origin passes; a non-empty value containing vercel.app or
campusbites passes; any other non-empty value is only logged and changes
neither counter. -/
theorem c7_cors_classification (env : Env) (c : Counters) :
    (truthy (env "FRONTEND_URL") = false → testCORSConfiguration env c = c.fail) ∧
    (env "FRONTEND_URL" = some "http://localhost:5173" →
       testCORSConfiguration env c = c.pass) ∧
    (∀ url, env "FRONTEND_URL" = some url → url ≠ "" →
       (includes url "vercel.app" || includes url "campusbites") = true →
       testCORSConfiguration env c = c.pass) ∧
    (∀ url, env "FRONTEND_URL" = some url → url ≠ "" →
       url ≠ "http://localhost:5173" →
       includes url "vercel.app" = false → includes url "campusbites" = false →
       testCORSConfiguration env c = c) := by
  refine ⟨?_, ?_, ?_, ?_⟩
  · intro h
    simp [testCORSConfiguration, h]
  · intro h
    simp [testCORSConfiguration, h, truthy]
  · intro url hurl hne hsub
    rcases Bool.or_eq_true_iff.mp hsub with hv | hc
    · simp [testCORSConfiguration, hurl, truthy, hne, hv]
    · simp [testCORSConfiguration, hurl, truthy, hne, hc]
  · intro url hurl hne hdev hv hc
    simp [testCORSConfiguration, hurl, truthy, hne, hdev, hv, hc]

/-- Witness for C7 amended: a production origin passes and an
unrecognised origin changes neither counter. -/
theorem c7_cors_classification_witness :
    testCORSConfiguration envProdFrontend ⟨0, 0⟩ = ⟨1, 0⟩ ∧
    testCORSConfiguration envOtherFrontend ⟨2, 3⟩ = ⟨2, 3⟩ := by
  constructor
  · exact (c7_cors_classification envProdFrontend ⟨0, 0⟩).2.2.1
      "https://campusbites.vercel.app" rfl (by decide) (by decide)
  · exact (c7_cors_classification envOtherFrontend ⟨2, 3⟩).2.2.2
      "https://example.org" rfl (by decide) (by decide) (by decide) (by decide)

/-- C4 counterexample: the Resend key display of line 162 shows the last
EIGHT characters of the sensitive key behind the mask, not the last
four: on a concrete key it differs from the claimed three-star plus
last-four form and the final eight key characters occur verbatim in the
printed string. -/
theorem c4_redaction_counterexample :
    resendKeyDisplay "re_abcdefghijklmnop" = "re_***ijklmnop" ∧
    resendKeyDisplay "re_abcdefghijklmnop"
      ≠ "***" ++ String.takeRight "re_abcdefghijklmnop" 4 ∧
    includes (resendKeyDisplay "re_abcdefghijklmnop")
      (String.takeRight "re_abcdefghijklmnop" 8) = true := by
  refine ⟨by decide, by decide, by decide⟩

/-- C4 amended: the environment-variable listing shows a truthy
sensitive value as three stars plus its last four characters and a
truthy non-sensitive value verbatim, and the Cloudinary key display uses
the same three-star last-four form, while the Resend key display shows
the mask re_*** followed by the last EIGHT characters of the key. -/
theorem c4_display_redaction (v : String) (hv : v ≠ "") :
    displayValue true (some v) = "***" ++ v.takeRight 4 ∧
    displayValue false (some v) = v ∧
    cloudinaryKeyDisplay v = "***" ++ v.takeRight 4 ∧
    resendKeyDisplay v = "re_***" ++ v.takeRight 8 := by
  have ht : truthy (some v) = true := by
    simp [truthy, hv]
  refine ⟨?_, ?_, rfl, rfl⟩
  · simp [displayValue, ht]
  · simp [displayValue, ht]

/-- Witness for C4 amended: evaluation on a concrete value. -/
theorem c4_display_redaction_witness :
    displayValue true (some "supersecretvalue") = "***alue" ∧
    displayValue false (some "supersecretvalue") = "supersecretvalue" ∧
    cloudinaryKeyDisplay "supersecretvalue" = "***alue" ∧
    resendKeyDisplay "supersecretvalue" = "re_***retvalue" := by
  obtain ⟨h1, h2, h3, h4⟩ := c4_display_redaction "supersecretvalue" (by decide)
  exact ⟨h1.trans (by decide), h2, h3.trans (by decide), h4.trans (by decide)⟩

/-- C8: the order route table holds exactly two bindings, POST
/cash-on-delivery to the cash-on-delivery controller and GET /order-list
to the order-details controller, and in both the auth middleware is
installed at the head of the handler chain, before the controller. -/
theorem c8_order_router_table :
    orderRouter.length = 2 ∧
    dispatch orderRouter .post "/cash-on-delivery"
      = some [.auth, .cashOnDeliveryOrderController] ∧
    dispatch orderRouter .get "/order-list"
      = some [.auth, .getOrderDetailsController] ∧
    (orderRouter.all fun b => b.handlers.head? == some Handler.auth) = true ∧
    (orderRouter.all fun b =>
       decide (Handler.auth ∈ b.handlers.take 1
         ∧ ¬ Handler.auth ∈ b.handlers.drop 1)) = true := by
  refine ⟨rfl, by decide, by decide, by decide, by decide⟩

/-- C10: with both counters at zero the percentage computation takes the
guarded branch and reports 0 instead of dividing by zero, and because
the failed-equals-zero branch is tested first the celebratory verdict is
selected even though no test ran. -/
theorem c10_empty_report_guard :
    passPercentageCentis 0 0 = 0 ∧
    successRateDisplay 0 0 = "0%" ∧
    reportVerdict ⟨0, 0⟩ = Verdict.allPassed := by
  refine ⟨rfl, by decide, by decide⟩

/-- C2: when at least one test ran, the success rate in hundredths of a
percent is passed/(passed+failed)×100 rounded half-up to two decimals,
and the verdict is the celebratory branch when failed is zero, the
warning branch when the rounded rate is at least 80 percent, and the
hard-failure branch otherwise; in particular passed 8 and failed 2 print
80.00% and select the warning branch. -/
theorem c2_report_threshold (p f : Nat) (h : 0 < p + f) :
    ((passPercentageCentis p f : ℤ)
        = round ((p * 10000 : ℚ) / ((p : ℚ) + f)) ∧
     (f = 0 → reportVerdict ⟨p, f⟩ = Verdict.allPassed) ∧
     (f ≠ 0 → 8000 ≤ passPercentageCentis p f →
        reportVerdict ⟨p, f⟩ = Verdict.warning) ∧
     (f ≠ 0 → passPercentageCentis p f < 8000 →
        reportVerdict ⟨p, f⟩ = Verdict.critical)) ∧
    (passPercentageCentis 8 2 = 8000 ∧
     successRateDisplay 8 2 = "80.00%" ∧
     reportVerdict ⟨8, 2⟩ = Verdict.warning) := by
  refine ⟨⟨?_, ?_, ?_, ?_⟩, by decide, by decide, by decide⟩
  · have ht : ((p : ℚ) + f) ≠ 0 := by
      have hq : ((p + f : ℕ) : ℚ) ≠ 0 := Nat.cast_ne_zero.mpr h.ne'
      push_cast at hq
      exact hq
    rw [round_eq]
    have key : (p * 10000 : ℚ) / ((p : ℚ) + f) + 1 / 2
        = ((2 * (p * 10000) + (p + f) : ℕ) : ℚ) / ((2 * (p + f) : ℕ) : ℚ) := by
      push_cast
      field_simp
      ring
    rw [key, ← Int.natCast_floor_eq_floor (by positivity), Nat.floor_div_eq_div]
    simp only [passPercentageCentis, if_pos h]
  · intro hf
    simp [reportVerdict, hf]
  · intro hf hge
    simp [reportVerdict, hf, hge]
  · intro hf hlt
    simp [reportVerdict, hf, Nat.not_le.mpr hlt]

/-- Witness for C2: the 8/2 state takes the warning branch and a 75
percent state takes the hard-failure branch. -/
theorem c2_report_threshold_witness :
    reportVerdict ⟨8, 2⟩ = Verdict.warning ∧
    reportVerdict ⟨3, 1⟩ = Verdict.critical := by
  constructor
  · exact (c2_report_threshold 8 2 (by decide)).1.2.2.1 (by decide) (by decide)
  · exact (c2_report_threshold 3 1 (by decide)).1.2.2.2 (by decide) (by decide)

/-- C3: every error thrown inside a check body is consumed by that
check's catch handler, which increments testsFailed on the counter state
at the throw; no error leaves a check, the orchestration always receives
an ordinary value, and the script exit status is 0 for every environment
and every behaviour of the external services. -/
theorem c3_error_isolation_and_exit (env : Env) (w : World) (c : Counters) :
    (∀ e c0, mongoBody env w.connect w.disconnect c = .error (e, c0) →
       testMongoDBConnection env w.connect w.disconnect c = c0.fail) ∧
    (∀ e c0, cloudinaryBody env w.usage c = .error (e, c0) →
       testCloudinaryAPI env w.usage c = c0.fail) ∧
    (∀ e c0, resendBody env w.resendFetch c = .error (e, c0) →
       testResendAPI env w.resendFetch c = c0.fail) ∧
    (∀ ep e, w.apiFetch ep.path = .error e →
       stepEndpoint w.apiFetch c ep = c.fail) ∧
    orchestrate env w = .ok (runChecks env w) ∧
    scriptExitCode env w = 0 := by
  refine ⟨?_, ?_, ?_, ?_, rfl, rfl⟩
  · intro e c0 hbody
    simp [testMongoDBConnection, hbody, runCheck]
  · intro e c0 hbody
    simp [testCloudinaryAPI, hbody, runCheck]
  · intro e c0 hbody
    simp [testResendAPI, hbody, runCheck]
  · intro ep e hfetch
    simp [stepEndpoint, hfetch]

/-- Witness for C3: a refused database connection is converted into a
single testsFailed increment and the run still exits 0. -/
theorem c3_error_isolation_and_exit_witness :
    testMongoDBConnection envMongoOnly worldConnectRefused.connect
      worldConnectRefused.disconnect ⟨0, 0⟩ = Counters.fail ⟨0, 0⟩ ∧
    scriptExitCode envMongoOnly worldConnectRefused = 0 := by
  have h := c3_error_isolation_and_exit envMongoOnly worldConnectRefused ⟨0, 0⟩
  exact ⟨h.1 "connect ECONNREFUSED 127.0.0.1:27017" ⟨0, 0⟩ rfl, h.2.2.2.2.2⟩

end CampusBites
